import Mathlib

/-!
Shallow embedding of the Qlik Space Migration Tool (`src/app.js`):
the migration data model, the conflict-detection pass run at migration
creation (`POST /api/migrations`, `QlikService.checkConnectionConflicts`,
`QlikService.checkFileConflicts`), the sequential execution engine
(`MigrationService.executeMigration`) and the cancel handler
(`POST /api/migrations/:migrationId/cancel`).

Modelling conventions:
* JavaScript strings are `String`; `===` on strings is `String` equality;
  `Array.includes` / `Set.has` are list membership.
* Nullable fields are `Option`; JS truthiness of a nullable string is
  `Option.isSome` combined with non-emptiness where the code relies on it.
* `Date.now()` is an external clock, passed in as a `Nat` per observation;
  the template literal renders it in decimal (`jsNumToString`).
* Wall-clock ISO timestamp fields (`createdAt`, `startedAt`, ...) carry no
  logic and are elided from the records.
* Remote (axios) calls are oracles passed in as `Except String α`
  (`.error msg` models a thrown error whose `message` is `msg`).
* JS float arithmetic in `Math.round((completed / total) * 100)` is
  modelled as exact rational rounding half-up (`jsRound100`).
-/

namespace QlikMig

/-- Item kinds: `item.itemType` is one of the strings
`'connection' | 'folder' | 'file'`. -/
inductive ItemType where
  | connection
  | folder
  | file
deriving DecidableEq

/-- Per-item statuses written by the engine. -/
inductive ItemStatus where
  | pending
  | in_progress
  | completed
  | failed
  | skipped
deriving DecidableEq

/-- Migration statuses. -/
inductive MigStatus where
  | created
  | running
  | completed
  | failed
  | cancelled
deriving DecidableEq

/-- `migration.progress` snapshot: `{ total, completed, failed, skipped, percentage }`. -/
structure ProgressSnap where
  total : Nat
  completed : Nat
  failed : Nat
  skipped : Nat
  percentage : Nat
deriving DecidableEq

/-- `options`: `{ mode, conflictStrategy }`. -/
structure MigOptions where
  mode : String
  conflictStrategy : Option String
deriving DecidableEq

/-- The Migration record built in the `POST /api/migrations` handler
(timestamp fields elided). -/
structure Migration where
  id : String
  tenantId : String
  sourceSpaceId : String
  sourceSpaceName : String
  targetSpaceId : String
  targetSpaceName : String
  status : MigStatus
  options : Option MigOptions
  progress : ProgressSnap
deriving DecidableEq

/-- The MigrationItem record (timestamp fields elided). -/
structure MigrationItem where
  id : String
  migrationId : String
  sourceId : String
  itemType : ItemType
  name : String
  sizeBytes : Nat
  status : ItemStatus
  conflictType : Option String
  conflictResolution : Option String
  targetId : Option String
  errorMessage : Option String
deriving DecidableEq

/-- A candidate item in the request body of `POST /api/migrations`:
`{ sourceId, itemType, name, sizeBytes }`. -/
structure CandidateItem where
  sourceId : String
  itemType : ItemType
  name : String
  sizeBytes : Nat
deriving DecidableEq

/-! ## Conflict detection (`QlikService.checkConnectionConflicts` /
`checkFileConflicts`)

Each takes the names existing in the target space for its own namespace
(the result of the remote list call, already mapped to names) and keeps
the candidate names present in that set. -/

/-- `checkConnectionConflicts`: filter candidate connection names by
membership in the existing connection names of the target space. -/
def checkConnectionConflicts (existingConnNames : List String)
    (connectionNames : List String) : List String :=
  connectionNames.filter (fun name => name ∈ existingConnNames)

/-- `checkFileConflicts`: filter candidate file/folder names by membership
in the existing file/folder names of the target space. -/
def checkFileConflicts (existingFileNames : List String)
    (fileNames : List String) : List String :=
  fileNames.filter (fun name => name ∈ existingFileNames)

/-- JS falsiness of a nullable string (`!x` true for `null`/`undefined`/`""`). -/
def jsFalsy : Option String → Bool
  | none => true
  | some s => s.isEmpty

/-- `options?.conflictStrategy || 'skip'`. -/
def strategyOf (options : Option MigOptions) : String :=
  match options with
  | none => "skip"
  | some o =>
    match o.conflictStrategy with
    | none => "skip"
    | some s => if s.isEmpty then "skip" else s

/-- The per-request conflict list `allConflicts = [...connConflicts, ...fileConflicts]`
computed by the `POST /api/migrations` handler from the target space's
existing connection names and existing file/folder names. -/
def allConflicts (existingConnNames existingFileNames : List String)
    (items : List CandidateItem) : List String :=
  let connNames := (items.filter (fun i => i.itemType = ItemType.connection)).map (·.name)
  let fileNames := (items.filter (fun i => ¬ i.itemType = ItemType.connection)).map (·.name)
  checkConnectionConflicts existingConnNames connNames ++
    checkFileConflicts existingFileNames fileNames

/-- Materialise one MigrationItem from a candidate, as in the
`items.map(item => ({...}))` of the handler: the conflict annotation is set
iff the candidate's name occurs in the merged `allConflicts` list. -/
def mkMigrationItem (migrationId itemId : String) (conflicts : List String)
    (options : Option MigOptions) (item : CandidateItem) : MigrationItem :=
  { id := itemId
    migrationId := migrationId
    sourceId := item.sourceId
    itemType := item.itemType
    name := item.name
    sizeBytes := item.sizeBytes
    status := ItemStatus.pending
    conflictType := if item.name ∈ conflicts then some "NAME_EXISTS" else none
    conflictResolution := if item.name ∈ conflicts then some (strategyOf options) else none
    targetId := none
    errorMessage := none }

/-- Map the candidates through `mkMigrationItem`, handing the candidate at
position `i` the generated id `itemIds i`. -/
def mkItemsAux (migrationId : String) (itemIds : Nat → String) (conflicts : List String)
    (options : Option MigOptions) : Nat → List CandidateItem → List MigrationItem
  | _, [] => []
  | i, item :: rest =>
    mkMigrationItem migrationId (itemIds i) conflicts options item ::
      mkItemsAux migrationId itemIds conflicts options (i + 1) rest

/-- The migration items created for a request: each candidate mapped through
`mkMigrationItem` against the request's merged conflict list. Item ids are
fresh UUIDs in the code; here the i-th item gets id `itemIds i`. -/
def mkMigrationItems (migrationId : String) (itemIds : Nat → String)
    (existingConnNames existingFileNames : List String)
    (options : Option MigOptions) (items : List CandidateItem) : List MigrationItem :=
  mkItemsAux migrationId itemIds
    (allConflicts existingConnNames existingFileNames items) options 0 items

/-! ## Decimal rendering of the `Date.now()` timestamp

The rename branch builds `` `${item.name}_copy_${Date.now()}` ``; the JS
template literal renders the integer timestamp in decimal. -/

/-- One decimal digit character. -/
def digitChar (d : Nat) : Char :=
  match d with
  | 0 => '0'
  | 1 => '1'
  | 2 => '2'
  | 3 => '3'
  | 4 => '4'
  | 5 => '5'
  | 6 => '6'
  | 7 => '7'
  | 8 => '8'
  | 9 => '9'
  | _ => '9'

/-- Decimal digit characters of a natural number, most significant first. -/
def decChars (n : Nat) : List Char :=
  if _h : n < 10 then [digitChar n]
  else decChars (n / 10) ++ [digitChar (n % 10)]
decreasing_by
  exact Nat.div_lt_self (by omega) (by omega)

/-- JS number-to-string conversion for a nonnegative integer. -/
def jsNumToString (n : Nat) : String :=
  ⟨decChars n⟩

/-- The effective name computed for an item at lines 207–213 of `app.js`:
`` let newName = item.name; if (item.conflictType && item.conflictResolution
=== 'rename') newName = `${item.name}_copy_${Date.now()}` ``. `now` is the
value of `Date.now()` at that point. -/
def effectiveName (item : MigrationItem) (now : Nat) : String :=
  if item.conflictType.isSome ∧ item.conflictResolution = some "rename" then
    item.name ++ "_copy_" ++ jsNumToString now
  else
    item.name

/-! ## Execution engine (`MigrationService.executeMigration`) -/

/-- The progress notification payload handed to `this.progressCallback`
(the `migrationId` field is constant over a run and elided). -/
structure ProgressNote where
  total : Nat
  completed : Nat
  failed : Nat
  skipped : Nat
  percentage : Nat
  currentItem : String
deriving DecidableEq

/-- `Math.round((completed / total) * 100)` as exact rational rounding
half-up: `⌊100·c/t + 1/2⌋`. -/
def jsRound100 (completed total : Nat) : Nat :=
  (200 * completed + total) / (2 * total)

/-- The three mutable counters of the execution loop. -/
structure CountState where
  completed : Nat
  failed : Nat
  skipped : Nat
deriving DecidableEq

/-- Sum of the three counters. -/
def CountState.sum (s : CountState) : Nat :=
  s.completed + s.failed + s.skipped

/-- A remote copy/duplicate call made for an item: which dispatch branch
ran, the item's `sourceId`, and the effective name used. For the
`connection` branch the code passes `newName !== item.name ? newName : null`
as the rename argument; `name` here records `newName` itself. -/
structure RemoteCall where
  kind : ItemType
  sourceId : String
  name : String
deriving DecidableEq

/-- Result of one iteration of the `for (const item of items)` loop. -/
structure StepResult where
  item : MigrationItem
  counts : CountState
  note : Option ProgressNote
  call : Option RemoteCall
deriving DecidableEq

/-- One iteration of the execution loop, for one item:
`cancelledObs` is whether `migration.status === 'cancelled'` read at the top
of the iteration; `remote` is the outcome of the remote call the dispatch
would make (`.ok targetId` or `.error message`); `now` is `Date.now()` at
the rename point; `s` is the counter state entering the iteration. -/
def processItem (total : Nat) (cancelledObs : Bool) (remote : Except String String)
    (now : Nat) (item : MigrationItem) (s : CountState) : StepResult :=
  if cancelledObs then
    { item := { item with status := ItemStatus.skipped }
      counts := { s with skipped := s.skipped + 1 }
      note := none
      call := none }
  else
    let note : ProgressNote :=
      { total := total, completed := s.completed, failed := s.failed,
        skipped := s.skipped, percentage := jsRound100 s.completed total,
        currentItem := item.name }
    if item.conflictType.isSome ∧ item.conflictResolution = some "skip" then
      { item := { item with status := ItemStatus.skipped }
        counts := { s with skipped := s.skipped + 1 }
        note := some note
        call := none }
    else
      let newName := effectiveName item now
      match remote with
      | Except.ok targetId =>
        { item := { item with status := ItemStatus.completed, targetId := some targetId }
          counts := { s with completed := s.completed + 1 }
          note := some note
          call := some ⟨item.itemType, item.sourceId, newName⟩ }
      | Except.error msg =>
        { item := { item with status := ItemStatus.failed, errorMessage := some msg }
          counts := { s with failed := s.failed + 1 }
          note := some note
          call := some ⟨item.itemType, item.sourceId, newName⟩ }

/-- Trace of a run of the item loop: the updated items, the counter state
observed at the top of each iteration (one entry per item), the progress
notification and remote call of each iteration (aligned with the items),
and the final counters. -/
structure ExecTrace where
  outItems : List MigrationItem
  states : List CountState
  notes : List (Option ProgressNote)
  calls : List (Option RemoteCall)
  finalCounts : CountState
deriving DecidableEq

/-- The item loop from iteration index `i0` with counters `s`. `cancelled i`
is the value of `migration.status === 'cancelled'` read at the top of
iteration `i` (set only by the external cancel handler); `remote i` the
remote outcome for iteration `i`; `now i` the clock at iteration `i`. -/
def execLoop (total : Nat) (cancelled : Nat → Bool) (remote : Nat → Except String String)
    (now : Nat → Nat) : Nat → List MigrationItem → CountState → ExecTrace
  | _, [], s => ⟨[], [], [], [], s⟩
  | i0, item :: rest, s =>
    let r := processItem total (cancelled i0) (remote i0) (now i0) item s
    let t := execLoop total cancelled remote now (i0 + 1) rest r.counts
    ⟨r.item :: t.outItems, s :: t.states, r.note :: t.notes, r.call :: t.calls, t.finalCounts⟩

/-- The counter state at the top of iteration `i` of `execLoop` started at
index `i0` on `l` with counters `s`. -/
def stateAt (total : Nat) (cancelled : Nat → Bool) (remote : Nat → Except String String)
    (now : Nat → Nat) : Nat → List MigrationItem → CountState → Nat → CountState
  | _, [], s, _ => s
  | _, _ :: _, s, 0 => s
  | i0, item :: rest, s, i + 1 =>
    stateAt total cancelled remote now (i0 + 1) rest
      (processItem total (cancelled i0) (remote i0) (now i0) item s).counts i

/-- Result of `executeMigration`: the migration and items as persisted when
the promise settles, plus the run's trace. `aborted = true` models the
unguarded `await this.qlik.getDataFilesConnectionId(...)` at line 182
throwing: the promise rejects (the caller swallows the rejection with
`.catch(console.error)`), so the migration keeps the `'running'` status
stored at line 180 and no item is touched. -/
structure ExecResult where
  migration : Migration
  items : List MigrationItem
  trace : ExecTrace
  aborted : Bool
deriving DecidableEq

/-- `MigrationService.executeMigration`. `connResolve` is the outcome of
resolving the target space's data-files connection id (`.ok none` when no
such connection exists, which is not fatal; `.error e` when the remote call
throws). -/
def executeMigration (migration : Migration) (items : List MigrationItem)
    (connResolve : Except String (Option String)) (cancelled : Nat → Bool)
    (remote : Nat → Except String String) (now : Nat → Nat) : ExecResult :=
  let total := items.length
  let running := { migration with status := MigStatus.running }
  match connResolve with
  | Except.error _ =>
    { migration := running, items := items, trace := ⟨[], [], [], [], ⟨0, 0, 0⟩⟩,
      aborted := true }
  | Except.ok _ =>
    let t := execLoop total cancelled remote now 0 items ⟨0, 0, 0⟩
    let s := t.finalCounts
    let finalStatus := if s.failed = total then MigStatus.failed else MigStatus.completed
    { migration :=
        { running with
          status := finalStatus
          progress :=
            { total := total, completed := s.completed, failed := s.failed,
              skipped := s.skipped, percentage := 100 } }
      items := t.outItems
      trace := t
      aborted := false }

/-! ## Store and HTTP handlers -/

/-- The in-process store: `store.migrations` and `store.migrationItems`,
both keyed by migration id. -/
structure Store where
  migrations : List (String × Migration)
  migrationItems : List (String × List MigrationItem)
deriving DecidableEq

/-- `Map.get`: first binding for the key, if any. -/
def mapGet {α : Type} (m : List (String × α)) (k : String) : Option α :=
  match m with
  | [] => none
  | (k', v) :: rest => if k' = k then some v else mapGet rest k

/-- `Map.set`: replace the binding for the key, or append it. -/
def mapSet {α : Type} (m : List (String × α)) (k : String) (v : α) : List (String × α) :=
  match m with
  | [] => [(k, v)]
  | (k', v') :: rest => if k' = k then (k, v) :: rest else (k', v') :: mapSet rest k v

/-- The cancel handler `POST /api/migrations/:migrationId/cancel`:
look the migration up (404 → `none`), then set its status to `'cancelled'`
unconditionally and store it back. -/
def cancelMigration (migrations : List (String × Migration)) (migrationId : String) :
    Option (List (String × Migration) × Migration) :=
  match mapGet migrations migrationId with
  | none => none
  | some m =>
    let m' := { m with status := MigStatus.cancelled }
    some (mapSet migrations migrationId m', m')

/-- Outcome of the `POST /api/migrations` handler. -/
inductive CreateResult where
  | badRequest
  | remoteError (message : String)
  | ok (migration : Migration) (items : List MigrationItem) (conflicts : List String)
deriving DecidableEq

/-- The `POST /api/migrations` handler. `sourceSpaceId`/`targetSpaceId` are
the (nullable) request fields; `getSourceSpace`/`getTargetSpace` are the
outcomes of the two `getSpace` remote calls (yielding the space name);
`listConn`/`listFiles` are the outcomes of the two conflict-detection list
calls (yielding the existing names in the target space); `migrationId` and
`itemIds` stand for the generated UUIDs. On any thrown remote error or
failed validation the store is returned unchanged. -/
def createMigration (tenantId : String) (sourceSpaceId targetSpaceId : Option String)
    (reqItems : List CandidateItem) (options : Option MigOptions)
    (getSourceSpace getTargetSpace : Except String String)
    (listConn listFiles : Except String (List String))
    (migrationId : String) (itemIds : Nat → String) (store : Store) :
    CreateResult × Store :=
  if jsFalsy sourceSpaceId ∨ jsFalsy targetSpaceId ∨ reqItems.length = 0 then
    (CreateResult.badRequest, store)
  else
    match getSourceSpace with
    | Except.error e => (CreateResult.remoteError e, store)
    | Except.ok sourceSpaceName =>
      match getTargetSpace with
      | Except.error e => (CreateResult.remoteError e, store)
      | Except.ok targetSpaceName =>
        match listConn with
        | Except.error e => (CreateResult.remoteError e, store)
        | Except.ok existingConnNames =>
          match listFiles with
          | Except.error e => (CreateResult.remoteError e, store)
          | Except.ok existingFileNames =>
            let conflicts := allConflicts existingConnNames existingFileNames reqItems
            let migration : Migration :=
              { id := migrationId
                tenantId := tenantId
                sourceSpaceId := (sourceSpaceId.getD "")
                sourceSpaceName := sourceSpaceName
                targetSpaceId := (targetSpaceId.getD "")
                targetSpaceName := targetSpaceName
                status := MigStatus.created
                options := some ((options).getD ⟨"copy", some "skip"⟩)
                progress :=
                  { total := reqItems.length, completed := 0, failed := 0,
                    skipped := 0, percentage := 0 } }
            let migItems := mkMigrationItems migrationId itemIds
              existingConnNames existingFileNames options reqItems
            (CreateResult.ok migration migItems conflicts,
             { migrations := mapSet store.migrations migrationId migration
               migrationItems := mapSet store.migrationItems migrationId migItems })

/-! ## Concrete fixtures for evaluating the definitions -/

/-- A concrete freshly created migration. -/
def sampleMigration : Migration :=
  { id := "mig-1", tenantId := "tenant-1", sourceSpaceId := "src", sourceSpaceName := "S",
    targetSpaceId := "tgt", targetSpaceName := "T", status := MigStatus.created,
    options := some ⟨"copy", some "skip"⟩,
    progress := { total := 2, completed := 0, failed := 0, skipped := 0, percentage := 0 } }

/-- A concrete pending file item with no conflict annotation. -/
def samplePendingItem : MigrationItem :=
  { id := "item-1", migrationId := "mig-1", sourceId := "src-obj-1",
    itemType := ItemType.file, name := "report.csv", sizeBytes := 500,
    status := ItemStatus.pending, conflictType := none, conflictResolution := none,
    targetId := none, errorMessage := none }

/-- A concrete pending connection item with a conflict resolved by `skip`. -/
def sampleSkipItem : MigrationItem :=
  { id := "item-2", migrationId := "mig-1", sourceId := "src-obj-2",
    itemType := ItemType.connection, name := "DB1", sizeBytes := 0,
    status := ItemStatus.pending, conflictType := some "NAME_EXISTS",
    conflictResolution := some "skip", targetId := none, errorMessage := none }

/-- A concrete pending connection item with a conflict resolved by `rename`. -/
def sampleRenameItem : MigrationItem :=
  { id := "item-3", migrationId := "mig-1", sourceId := "src-obj-3",
    itemType := ItemType.connection, name := "DB1", sizeBytes := 0,
    status := ItemStatus.pending, conflictType := some "NAME_EXISTS",
    conflictResolution := some "rename", targetId := none, errorMessage := none }

/-! ## Lemmas about the decimal rendering -/

/-- `decChars` on a single digit. -/
lemma decChars_lt {n : Nat} (h : n < 10) : decChars n = [digitChar n] := by
  rw [decChars]
  simp [h]

/-- `decChars` on a number with at least two digits. -/
lemma decChars_ge {n : Nat} (h : ¬ n < 10) : decChars n = decChars (n / 10) ++ [digitChar (n % 10)] := by
  rw [decChars]
  simp [h]

/-- Decimal renderings are nonempty. -/
lemma one_le_length_decChars (n : Nat) : 1 ≤ (decChars n).length := by
  by_cases h : n < 10
  · rw [decChars_lt h]
    simp
  · rw [decChars_ge h]
    simp

/-- `digitChar` restricted to digits, as a function on `Fin 10`, is injective. -/
lemma digitChar_fin_inj : ∀ d e : Fin 10, digitChar d = digitChar e → d = e := by
  decide

/-- `digitChar` is injective on digits. -/
lemma digitChar_inj {d e : Nat} (hd : d < 10) (he : e < 10)
    (h : digitChar d = digitChar e) : d = e := by
  have := digitChar_fin_inj ⟨d, hd⟩ ⟨e, he⟩ h
  exact congrArg Fin.val this

/-- Decimal rendering is injective. -/
lemma decChars_inj (m : Nat) : ∀ n, decChars m = decChars n → m = n := by
  induction m using Nat.strong_induction_on with
  | _ m ih =>
    intro n h
    by_cases hm : m < 10
    · by_cases hn : n < 10
      · rw [decChars_lt hm, decChars_lt hn] at h
        exact digitChar_inj hm hn (List.singleton_injective h)
      · rw [decChars_lt hm, decChars_ge hn] at h
        have hlen := congrArg List.length h
        simp only [List.length_append, List.length_singleton] at hlen
        have := one_le_length_decChars (n / 10)
        omega
    · by_cases hn : n < 10
      · rw [decChars_ge hm, decChars_lt hn] at h
        have hlen := congrArg List.length h
        simp only [List.length_append, List.length_singleton] at hlen
        have := one_le_length_decChars (m / 10)
        omega
      · rw [decChars_ge hm, decChars_ge hn] at h
        have hsplit := List.append_inj' h (by simp)
        have hdiv : m / 10 = n / 10 :=
          ih (m / 10) (Nat.div_lt_self (by omega) (by omega)) (n / 10) hsplit.1
        have hmod : m % 10 = n % 10 :=
          digitChar_inj (Nat.mod_lt _ (by omega)) (Nat.mod_lt _ (by omega))
            (List.singleton_injective hsplit.2)
        omega

/-- The character data of a rendered number is its digit list. -/
lemma data_jsNumToString (n : Nat) : (jsNumToString n).data = decChars n := rfl

/-- JS decimal rendering of integers is injective. -/
lemma jsNumToString_inj {m n : Nat} (h : jsNumToString m = jsNumToString n) : m = n := by
  unfold jsNumToString at h
  exact decChars_inj m n (congrArg String.data h)

/-! ## Lemmas about the effective name -/

/-- A renamed item keeps `name ++ "_copy_" ++ <timestamp>` as effective name. -/
lemma effectiveName_rename {item : MigrationItem} (hc : item.conflictType.isSome)
    (hr : item.conflictResolution = some "rename") (t : Nat) :
    effectiveName item t = item.name ++ "_copy_" ++ jsNumToString t := by
  unfold effectiveName
  rw [if_pos ⟨hc, hr⟩]

/-- The renamed effective name differs from the original name. -/
lemma effectiveName_rename_ne {item : MigrationItem} (hc : item.conflictType.isSome)
    (hr : item.conflictResolution = some "rename") (t : Nat) :
    effectiveName item t ≠ item.name := by
  rw [effectiveName_rename hc hr]
  intro h
  have hdata := congrArg String.data h
  simp only [String.data_append, data_jsNumToString] at hdata
  have hlen := congrArg List.length hdata
  simp only [List.length_append] at hlen
  have h6 : ("_copy_" : String).data.length = 6 := by decide
  have := one_le_length_decChars t
  omega

/-- Renamed effective names from distinct timestamps are distinct. -/
lemma effectiveName_rename_inj {item : MigrationItem} (hc : item.conflictType.isSome)
    (hr : item.conflictResolution = some "rename") {t t' : Nat} (ht : t ≠ t') :
    effectiveName item t ≠ effectiveName item t' := by
  rw [effectiveName_rename hc hr, effectiveName_rename hc hr]
  intro h
  have hdata := congrArg String.data h
  simp only [String.data_append, List.append_assoc] at hdata
  have := List.append_cancel_left hdata
  have := List.append_cancel_left this
  exact ht (jsNumToString_inj (String.ext this))

/-- An item with no conflict annotation keeps its original name. -/
lemma effectiveName_no_conflict {item : MigrationItem} (hc : item.conflictType = none)
    (t : Nat) : effectiveName item t = item.name := by
  unfold effectiveName
  rw [if_neg]
  intro hcontra
  rw [hc] at hcontra
  simp at hcontra

/-! ## Analysis of the execution loop -/

/-- The four trace lists of `execLoop` have the length of the item list. -/
lemma execLoop_lengths (total : Nat) (c : Nat → Bool) (r : Nat → Except String String)
    (n : Nat → Nat) : ∀ (l : List MigrationItem) (i0 : Nat) (s : CountState),
    (execLoop total c r n i0 l s).outItems.length = l.length ∧
    (execLoop total c r n i0 l s).states.length = l.length ∧
    (execLoop total c r n i0 l s).notes.length = l.length ∧
    (execLoop total c r n i0 l s).calls.length = l.length := by
  intro l
  induction l with
  | nil => intro i0 s; simp [execLoop]
  | cons item rest ih =>
    intro i0 s
    have h := ih (i0 + 1) (processItem total (c i0) (r i0) (n i0) item s).counts
    simp [execLoop, h.1, h.2.1, h.2.2.1, h.2.2.2]

/-- Elementwise description of the loop trace: entry `i` of the states list
is `stateAt ... i`, and entry `i` of the items, notes and calls lists is the
result of `processItem` on the `i`-th input item at that state, observing
cancellation, remote outcome and clock at index `i0 + i`. -/
lemma execLoop_spec (total : Nat) (c : Nat → Bool) (r : Nat → Except String String)
    (n : Nat → Nat) : ∀ (l : List MigrationItem) (i0 : Nat) (s : CountState) (i : Nat),
    i < l.length →
    (execLoop total c r n i0 l s).states[i]? = some (stateAt total c r n i0 l s i) ∧
    (execLoop total c r n i0 l s).outItems[i]? = (l[i]?).map
      (fun it => (processItem total (c (i0 + i)) (r (i0 + i)) (n (i0 + i)) it
        (stateAt total c r n i0 l s i)).item) ∧
    (execLoop total c r n i0 l s).notes[i]? = (l[i]?).map
      (fun it => (processItem total (c (i0 + i)) (r (i0 + i)) (n (i0 + i)) it
        (stateAt total c r n i0 l s i)).note) ∧
    (execLoop total c r n i0 l s).calls[i]? = (l[i]?).map
      (fun it => (processItem total (c (i0 + i)) (r (i0 + i)) (n (i0 + i)) it
        (stateAt total c r n i0 l s i)).call) := by
  intro l
  induction l with
  | nil => intro i0 s i hi; simp at hi
  | cons item rest ih =>
    intro i0 s i hi
    match i with
    | 0 =>
      simp [execLoop, stateAt]
    | i + 1 =>
      have hi' : i < rest.length := by simpa using hi
      have h := ih (i0 + 1) (processItem total (c i0) (r i0) (n i0) item s).counts i hi'
      have hadd : i0 + 1 + i = i0 + (i + 1) := by omega
      simp only [execLoop, stateAt, List.getElem?_cons_succ]
      rw [← hadd]
      exact h

/-- Each loop iteration advances exactly one counter. -/
lemma processItem_sum (total : Nat) (co : Bool) (re : Except String String) (no : Nat)
    (item : MigrationItem) (s : CountState) :
    (processItem total co re no item s).counts.sum = s.sum + 1 := by
  unfold processItem CountState.sum
  split
  · simp
    omega
  · split
    · simp
      omega
    · cases re <;> simp <;> omega

/-- The loop's final counters sum to the starting sum plus the item count. -/
lemma execLoop_final_sum (total : Nat) (c : Nat → Bool) (r : Nat → Except String String)
    (n : Nat → Nat) : ∀ (l : List MigrationItem) (i0 : Nat) (s : CountState),
    (execLoop total c r n i0 l s).finalCounts.sum = s.sum + l.length := by
  intro l
  induction l with
  | nil => intro i0 s; simp [execLoop]
  | cons item rest ih =>
    intro i0 s
    have h := ih (i0 + 1) (processItem total (c i0) (r i0) (n i0) item s).counts
    simp only [execLoop, List.length_cons]
    rw [h, processItem_sum]
    omega

/-- Every counter state observed at the top of an iteration sums to at most
the starting sum plus the item count. -/
lemma execLoop_states_sum_le (total : Nat) (c : Nat → Bool) (r : Nat → Except String String)
    (n : Nat → Nat) : ∀ (l : List MigrationItem) (i0 : Nat) (s : CountState),
    ∀ st ∈ (execLoop total c r n i0 l s).states, st.sum ≤ s.sum + l.length := by
  intro l
  induction l with
  | nil => intro i0 s st hst; simp [execLoop] at hst
  | cons item rest ih =>
    intro i0 s st hst
    simp only [execLoop, List.mem_cons] at hst
    rcases hst with h | h
    · subst h
      simp only [List.length_cons]
      omega
    · have := ih (i0 + 1) (processItem total (c i0) (r i0) (n i0) item s).counts st h
      rw [processItem_sum] at this
      simp only [List.length_cons]
      omega

/-- The failed counter advances exactly when the item ends `failed`. -/
lemma processItem_failed (total : Nat) (co : Bool) (re : Except String String) (no : Nat)
    (item : MigrationItem) (s : CountState) :
    (processItem total co re no item s).counts.failed =
      s.failed + (if (processItem total co re no item s).item.status = ItemStatus.failed
        then 1 else 0) := by
  unfold processItem
  split
  · simp
  · split
    · simp
    · cases re <;> simp

/-- The final failed counter counts the items that ended `failed`. -/
lemma execLoop_failed_count (total : Nat) (c : Nat → Bool) (r : Nat → Except String String)
    (n : Nat → Nat) : ∀ (l : List MigrationItem) (i0 : Nat) (s : CountState),
    (execLoop total c r n i0 l s).finalCounts.failed =
      s.failed + (execLoop total c r n i0 l s).outItems.countP
        (fun it => decide (it.status = ItemStatus.failed)) := by
  intro l
  induction l with
  | nil => intro i0 s; simp [execLoop]
  | cons item rest ih =>
    intro i0 s
    have h := ih (i0 + 1) (processItem total (c i0) (r i0) (n i0) item s).counts
    simp only [execLoop, List.countP_cons]
    rw [h, processItem_failed]
    by_cases hf : (processItem total (c i0) (r i0) (n i0) item s).item.status
        = ItemStatus.failed
    · simp [hf]; omega
    · simp [hf]

/-- A cancelled iteration skips the item, makes no remote call and emits no
progress notification. -/
lemma processItem_cancelled (total : Nat) (re : Except String String) (no : Nat)
    (item : MigrationItem) (s : CountState) :
    processItem total true re no item s =
      { item := { item with status := ItemStatus.skipped }
        counts := { s with skipped := s.skipped + 1 }
        note := none
        call := none } := by
  unfold processItem
  simp

/-- A non-cancelled iteration emits the progress notification built from the
counters entering the iteration. -/
lemma processItem_note (total : Nat) (re : Except String String) (no : Nat)
    (item : MigrationItem) (s : CountState) :
    (processItem total false re no item s).note =
      some { total := total
             completed := s.completed
             failed := s.failed
             skipped := s.skipped
             percentage := jsRound100 s.completed total
             currentItem := item.name } := by
  unfold processItem
  simp only [Bool.false_eq_true, if_false]
  split
  · rfl
  · cases re <;> rfl

/-- A non-cancelled iteration of a conflict-annotated item resolved by `skip`
skips the item and makes no remote call. -/
lemma processItem_skip (total : Nat) (re : Except String String) (no : Nat)
    (item : MigrationItem) (s : CountState)
    (hc : item.conflictType.isSome) (hr : item.conflictResolution = some "skip") :
    (processItem total false re no item s).item = { item with status := ItemStatus.skipped } ∧
    (processItem total false re no item s).call = none := by
  unfold processItem
  simp only [Bool.false_eq_true, if_false]
  rw [if_pos ⟨hc, hr⟩]
  exact ⟨rfl, rfl⟩

/-- A non-cancelled iteration of an item not resolved by `skip` dispatches a
remote call carrying the item's kind, source id and effective name. -/
lemma processItem_call (total : Nat) (re : Except String String) (no : Nat)
    (item : MigrationItem) (s : CountState)
    (hns : ¬ (item.conflictType.isSome ∧ item.conflictResolution = some "skip")) :
    (processItem total false re no item s).call =
      some ⟨item.itemType, item.sourceId, effectiveName item no⟩ := by
  unfold processItem
  simp only [Bool.false_eq_true, if_false]
  rw [if_neg hns]
  cases re <;> rfl

/-- `stateAt` depends on the cancellation flags only at the indices already
traversed. -/
lemma stateAt_congr (total : Nat) (c c' : Nat → Bool) (r : Nat → Except String String)
    (n : Nat → Nat) : ∀ (l : List MigrationItem) (i0 : Nat) (s : CountState) (i : Nat),
    (∀ j, j < i → c (i0 + j) = c' (i0 + j)) →
    stateAt total c r n i0 l s i = stateAt total c' r n i0 l s i := by
  intro l
  induction l with
  | nil => intro i0 s i hc; simp [stateAt]
  | cons item rest ih =>
    intro i0 s i hc
    match i with
    | 0 => simp [stateAt]
    | i + 1 =>
      have h0 : c i0 = c' i0 := by
        have := hc 0 (by omega)
        simpa using this
      simp only [stateAt]
      rw [h0]
      exact ih (i0 + 1) _ i (fun j hj => by
        have h2 := hc (j + 1) (by omega)
        have he : i0 + (j + 1) = i0 + 1 + j := by omega
        rw [he] at h2
        exact h2)

/-! ## Lemmas about migration creation -/

/-- `mkItemsAux` preserves the number of items. -/
lemma mkItemsAux_length (migrationId : String) (itemIds : Nat → String)
    (conflicts : List String) (options : Option MigOptions) :
    ∀ (i : Nat) (items : List CandidateItem),
    (mkItemsAux migrationId itemIds conflicts options i items).length = items.length := by
  intro i items
  induction items generalizing i with
  | nil => simp [mkItemsAux]
  | cons item rest ih => simp [mkItemsAux, ih]

/-- Elementwise description of `mkItemsAux`. -/
lemma mkItemsAux_getElem (migrationId : String) (itemIds : Nat → String)
    (conflicts : List String) (options : Option MigOptions) :
    ∀ (items : List CandidateItem) (i0 i : Nat),
    (mkItemsAux migrationId itemIds conflicts options i0 items)[i]? = (items[i]?).map
      (mkMigrationItem migrationId (itemIds (i0 + i)) conflicts options) := by
  intro items
  induction items with
  | nil => intro i0 i; simp [mkItemsAux]
  | cons item rest ih =>
    intro i0 i
    match i with
    | 0 => simp [mkItemsAux]
    | i + 1 =>
      have h := ih (i0 + 1) i
      have hadd : i0 + 1 + i = i0 + (i + 1) := by omega
      simp only [mkItemsAux, List.getElem?_cons_succ]
      rw [← hadd]
      exact h

/-- Membership in the merged conflict list of a request. -/
lemma mem_allConflicts {existingConnNames existingFileNames : List String}
    {items : List CandidateItem} {name : String} :
    name ∈ allConflicts existingConnNames existingFileNames items ↔
      ((∃ c ∈ items, c.itemType = ItemType.connection ∧ c.name = name) ∧
        name ∈ existingConnNames) ∨
      ((∃ f ∈ items, ¬ f.itemType = ItemType.connection ∧ f.name = name) ∧
        name ∈ existingFileNames) := by
  unfold allConflicts checkConnectionConflicts checkFileConflicts
  simp only [List.mem_append, List.mem_filter, List.mem_map, List.mem_filter,
    decide_eq_true_eq]
  constructor
  · rintro (⟨⟨c, ⟨hc, hk⟩, hn⟩, hex⟩ | ⟨⟨f, ⟨hf, hk⟩, hn⟩, hex⟩)
    · exact Or.inl ⟨⟨c, hc, hk, hn⟩, hex⟩
    · exact Or.inr ⟨⟨f, hf, hk, hn⟩, hex⟩
  · rintro (⟨⟨c, hc, hk, hn⟩, hex⟩ | ⟨⟨f, hf, hk, hn⟩, hex⟩)
    · exact Or.inl ⟨⟨c, ⟨hc, hk⟩, hn⟩, hex⟩
    · exact Or.inr ⟨⟨f, ⟨hf, hk⟩, hn⟩, hex⟩

/-- `mapGet` after `mapSet` at the same key finds the new value. -/
lemma mapGet_mapSet_self {α : Type} (m : List (String × α)) (k : String) (v : α) :
    mapGet (mapSet m k v) k = some v := by
  induction m with
  | nil => simp [mapGet, mapSet]
  | cons p rest ih =>
    by_cases h : p.1 = k
    · simp [mapGet, mapSet, h]
    · simp [mapGet, mapSet, h, ih]

/-! ## Claim theorems -/

/-- C9: if the one-time resolution of the target space's data-files
connection id at the start of execution throws, `executeMigration` aborts
before processing any item: the migration keeps status `running` (the start
handler swallows the rejection, so no terminal status is ever reached), every
item stays `pending`, and no progress notification or remote call happens. -/
theorem claim9_resolution_failure_leaves_running (migration : Migration)
    (items : List MigrationItem) (e : String) (cancelled : Nat → Bool)
    (remote : Nat → Except String String) (now : Nat → Nat) (res : ExecResult)
    (hres : res = executeMigration migration items (Except.error e) cancelled remote now)
    (hpend : ∀ it ∈ items, it.status = ItemStatus.pending) :
    res.migration.status = MigStatus.running ∧ res.aborted = true ∧
    res.items = items ∧ (∀ it ∈ res.items, it.status = ItemStatus.pending) ∧
    res.trace.outItems = [] ∧ res.trace.notes = [] ∧ res.trace.calls = [] := by
  subst hres
  exact ⟨rfl, rfl, rfl, hpend, rfl, rfl, rfl⟩

/-- Witness for C9 at a concrete migration and item list. -/
theorem claim9_witness :
    (executeMigration sampleMigration [samplePendingItem] (Except.error "boom")
      (fun _ => false) (fun _ => Except.ok "tid") (fun _ => 0)).migration.status
        = MigStatus.running ∧
    (executeMigration sampleMigration [samplePendingItem] (Except.error "boom")
      (fun _ => false) (fun _ => Except.ok "tid") (fun _ => 0)).aborted = true ∧
    (executeMigration sampleMigration [samplePendingItem] (Except.error "boom")
      (fun _ => false) (fun _ => Except.ok "tid") (fun _ => 0)).items
        = [samplePendingItem] ∧
    (∀ it ∈ (executeMigration sampleMigration [samplePendingItem] (Except.error "boom")
      (fun _ => false) (fun _ => Except.ok "tid") (fun _ => 0)).items,
        it.status = ItemStatus.pending) ∧
    (executeMigration sampleMigration [samplePendingItem] (Except.error "boom")
      (fun _ => false) (fun _ => Except.ok "tid") (fun _ => 0)).trace.outItems = [] ∧
    (executeMigration sampleMigration [samplePendingItem] (Except.error "boom")
      (fun _ => false) (fun _ => Except.ok "tid") (fun _ => 0)).trace.notes = [] ∧
    (executeMigration sampleMigration [samplePendingItem] (Except.error "boom")
      (fun _ => false) (fun _ => Except.ok "tid") (fun _ => 0)).trace.calls = [] :=
  claim9_resolution_failure_leaves_running sampleMigration [samplePendingItem] "boom"
    (fun _ => false) (fun _ => Except.ok "tid") (fun _ => 0) _ rfl
    (by intro it hit; simp only [List.mem_singleton] at hit; subst hit; rfl)

/-- C10: the cancel handler sets the looked-up migration's status to
`cancelled` unconditionally, whatever its current status (including the
terminal statuses `completed` and `failed`, which are overwritten). -/
theorem claim10_cancel_unconditional (migrations : List (String × Migration))
    (migrationId : String) (m : Migration)
    (h : mapGet migrations migrationId = some m) :
    cancelMigration migrations migrationId =
      some (mapSet migrations migrationId { m with status := MigStatus.cancelled },
        { m with status := MigStatus.cancelled }) ∧
    mapGet (mapSet migrations migrationId { m with status := MigStatus.cancelled })
      migrationId = some { m with status := MigStatus.cancelled } := by
  constructor
  · unfold cancelMigration
    rw [h]
  · exact mapGet_mapSet_self migrations migrationId _

/-- Witness for C10 at a concrete store holding a migration already in the
terminal status `completed`: cancelling overwrites it. -/
theorem claim10_witness :
    cancelMigration [("mig-1", { sampleMigration with status := MigStatus.completed })]
        "mig-1" =
      some (mapSet [("mig-1", { sampleMigration with status := MigStatus.completed })]
          "mig-1"
          { { sampleMigration with status := MigStatus.completed } with
              status := MigStatus.cancelled },
        { { sampleMigration with status := MigStatus.completed } with
            status := MigStatus.cancelled }) ∧
    mapGet (mapSet [("mig-1", { sampleMigration with status := MigStatus.completed })]
        "mig-1"
        { { sampleMigration with status := MigStatus.completed } with
            status := MigStatus.cancelled }) "mig-1" =
      some { { sampleMigration with status := MigStatus.completed } with
          status := MigStatus.cancelled } :=
  claim10_cancel_unconditional
    [("mig-1", { sampleMigration with status := MigStatus.completed })] "mig-1"
    { sampleMigration with status := MigStatus.completed } (by decide)

/-- C5: during an execution run, the counter state observed at the top of
every iteration sums to at most the item count, and at the end of the run
the counters sum to exactly the item count — every item ended in exactly one
of completed, failed, skipped — as does the final progress snapshot. -/
theorem claim5_counts_invariant (migration : Migration) (items : List MigrationItem)
    (connOk : Option String) (cancelled : Nat → Bool)
    (remote : Nat → Except String String) (now : Nat → Nat) (res : ExecResult)
    (hres : res = executeMigration migration items (Except.ok connOk) cancelled remote now) :
    (∀ st ∈ res.trace.states, st.sum ≤ items.length) ∧
    res.trace.finalCounts.sum = items.length ∧
    res.migration.progress.completed + res.migration.progress.failed +
      res.migration.progress.skipped = res.migration.progress.total ∧
    res.migration.progress.total = items.length := by
  subst hres
  simp only [executeMigration]
  refine ⟨?_, ?_, ?_, by trivial⟩
  · intro st hst
    have h := execLoop_states_sum_le items.length cancelled remote now items 0 ⟨0, 0, 0⟩ st hst
    simpa [CountState.sum] using h
  · have h := execLoop_final_sum items.length cancelled remote now items 0 ⟨0, 0, 0⟩
    simpa [CountState.sum] using h
  · have h := execLoop_final_sum items.length cancelled remote now items 0 ⟨0, 0, 0⟩
    simp only [CountState.sum] at h
    simpa using h

/-- Witness for C5 at a concrete two-item run. -/
theorem claim5_witness :
    (∀ st ∈ (executeMigration sampleMigration [samplePendingItem, sampleSkipItem]
        (Except.ok none) (fun _ => false) (fun _ => Except.ok "tid")
        (fun _ => 0)).trace.states, st.sum ≤ 2) ∧
    (executeMigration sampleMigration [samplePendingItem, sampleSkipItem]
        (Except.ok none) (fun _ => false) (fun _ => Except.ok "tid")
        (fun _ => 0)).trace.finalCounts.sum = 2 ∧
    (executeMigration sampleMigration [samplePendingItem, sampleSkipItem]
        (Except.ok none) (fun _ => false) (fun _ => Except.ok "tid")
        (fun _ => 0)).migration.progress.completed +
      (executeMigration sampleMigration [samplePendingItem, sampleSkipItem]
        (Except.ok none) (fun _ => false) (fun _ => Except.ok "tid")
        (fun _ => 0)).migration.progress.failed +
      (executeMigration sampleMigration [samplePendingItem, sampleSkipItem]
        (Except.ok none) (fun _ => false) (fun _ => Except.ok "tid")
        (fun _ => 0)).migration.progress.skipped =
      (executeMigration sampleMigration [samplePendingItem, sampleSkipItem]
        (Except.ok none) (fun _ => false) (fun _ => Except.ok "tid")
        (fun _ => 0)).migration.progress.total ∧
    (executeMigration sampleMigration [samplePendingItem, sampleSkipItem]
        (Except.ok none) (fun _ => false) (fun _ => Except.ok "tid")
        (fun _ => 0)).migration.progress.total = 2 :=
  claim5_counts_invariant sampleMigration [samplePendingItem, sampleSkipItem] none
    (fun _ => false) (fun _ => Except.ok "tid") (fun _ => 0) _ rfl

/-- C2: for a migration with at least one item, the final status is `failed`
iff every item ended `failed`; if at least one item ended `completed` — or
the failed count is below the total — the final status is `completed`. -/
theorem claim2_final_status (migration : Migration) (items : List MigrationItem)
    (connOk : Option String) (cancelled : Nat → Bool)
    (remote : Nat → Except String String) (now : Nat → Nat) (res : ExecResult)
    (hres : res = executeMigration migration items (Except.ok connOk) cancelled remote now)
    (_hne : items ≠ []) :
    (res.migration.status = MigStatus.failed ↔
      ∀ it ∈ res.items, it.status = ItemStatus.failed) ∧
    (res.trace.finalCounts.failed < items.length →
      res.migration.status = MigStatus.completed) ∧
    ((∃ it ∈ res.items, it.status = ItemStatus.completed) →
      res.migration.status = MigStatus.completed) := by
  subst hres
  have hlen := (execLoop_lengths items.length cancelled remote now items 0 ⟨0, 0, 0⟩).1
  have hcount := execLoop_failed_count items.length cancelled remote now items 0 ⟨0, 0, 0⟩
  simp only [Nat.zero_add] at hcount
  simp only [executeMigration]
  set t := execLoop items.length cancelled remote now 0 items ⟨0, 0, 0⟩ with ht
  have hiff : t.finalCounts.failed = items.length ↔
      ∀ it ∈ t.outItems, it.status = ItemStatus.failed := by
    rw [hcount]
    constructor
    · intro hc it hit
      have : t.outItems.countP (fun it => decide (it.status = ItemStatus.failed))
          = t.outItems.length := by omega
      have hall := List.countP_eq_length.mp this it hit
      simpa using hall
    · intro hall
      have : t.outItems.countP (fun it => decide (it.status = ItemStatus.failed))
          = t.outItems.length :=
        List.countP_eq_length.mpr (fun a ha => by simpa using hall a ha)
      omega
  refine ⟨?_, ?_, ?_⟩
  · by_cases hc : t.finalCounts.failed = items.length
    · simp only [hc, if_pos rfl]
      exact ⟨fun _ => hiff.mp hc, fun _ => rfl⟩
    · rw [if_neg hc]
      constructor
      · intro hcontra
        exact absurd hcontra (by simp)
      · intro hall
        exact absurd (hiff.mpr hall) hc
  · intro hlt
    rw [if_neg (by omega)]
  · rintro ⟨it, hit, hst⟩
    have hc : ¬ t.finalCounts.failed = items.length := by
      intro hc
      have := hiff.mp hc it hit
      rw [hst] at this
      exact absurd this (by simp)
    rw [if_neg hc]

/-- Witness for C2: one item that fails remotely and one conflict-skip item;
the failed count (1) is below the total (2) and the run ends `completed`. -/
theorem claim2_witness :
    ((executeMigration sampleMigration [samplePendingItem, sampleSkipItem]
        (Except.ok none) (fun _ => false) (fun _ => Except.error "denied")
        (fun _ => 0)).migration.status = MigStatus.failed ↔
      ∀ it ∈ (executeMigration sampleMigration [samplePendingItem, sampleSkipItem]
        (Except.ok none) (fun _ => false) (fun _ => Except.error "denied")
        (fun _ => 0)).items, it.status = ItemStatus.failed) ∧
    ((executeMigration sampleMigration [samplePendingItem, sampleSkipItem]
        (Except.ok none) (fun _ => false) (fun _ => Except.error "denied")
        (fun _ => 0)).trace.finalCounts.failed < 2 →
      (executeMigration sampleMigration [samplePendingItem, sampleSkipItem]
        (Except.ok none) (fun _ => false) (fun _ => Except.error "denied")
        (fun _ => 0)).migration.status = MigStatus.completed) ∧
    ((∃ it ∈ (executeMigration sampleMigration [samplePendingItem, sampleSkipItem]
        (Except.ok none) (fun _ => false) (fun _ => Except.error "denied")
        (fun _ => 0)).items, it.status = ItemStatus.completed) →
      (executeMigration sampleMigration [samplePendingItem, sampleSkipItem]
        (Except.ok none) (fun _ => false) (fun _ => Except.error "denied")
        (fun _ => 0)).migration.status = MigStatus.completed) :=
  claim2_final_status sampleMigration [samplePendingItem, sampleSkipItem] none
    (fun _ => false) (fun _ => Except.error "denied") (fun _ => 0) _ rfl (by decide)

/-- C4: an item carrying a conflict annotation with resolution `skip` is
never dispatched to a remote duplicate/copy call and ends `skipped`,
whether or not the migration was already cancelled at its iteration. -/
theorem claim4_conflict_skip_never_dispatched (migration : Migration)
    (items : List MigrationItem) (connOk : Option String) (cancelled : Nat → Bool)
    (remote : Nat → Except String String) (now : Nat → Nat) (res : ExecResult)
    (j : Nat) (it : MigrationItem)
    (hres : res = executeMigration migration items (Except.ok connOk) cancelled remote now)
    (hj : items[j]? = some it)
    (hc : it.conflictType.isSome) (hr : it.conflictResolution = some "skip") :
    res.trace.outItems[j]? = some { it with status := ItemStatus.skipped } ∧
    res.trace.calls[j]? = some none := by
  subst hres
  have hjlt : j < items.length := by
    by_contra hge
    rw [List.getElem?_eq_none (by omega)] at hj
    exact Option.noConfusion hj
  have hspec := execLoop_spec items.length cancelled remote now items 0 ⟨0, 0, 0⟩ j hjlt
  simp only [Nat.zero_add] at hspec
  simp only [executeMigration]
  rw [hspec.2.1, hspec.2.2.2, hj]
  simp only [Option.map_some']
  cases hcj : cancelled j with
  | true =>
    rw [processItem_cancelled]
    exact ⟨rfl, rfl⟩
  | false =>
    have h := processItem_skip items.length (remote j) (now j) it
      (stateAt items.length cancelled remote now 0 items ⟨0, 0, 0⟩ j) hc hr
    rw [h.1, h.2]
    exact ⟨rfl, rfl⟩

/-- Witness for C4 at a concrete run on the conflict-skip item. -/
theorem claim4_witness :
    (executeMigration sampleMigration [sampleSkipItem] (Except.ok none)
        (fun _ => false) (fun _ => Except.ok "tid")
        (fun _ => 0)).trace.outItems[0]? =
      some { sampleSkipItem with status := ItemStatus.skipped } ∧
    (executeMigration sampleMigration [sampleSkipItem] (Except.ok none)
        (fun _ => false) (fun _ => Except.ok "tid")
        (fun _ => 0)).trace.calls[0]? = some none :=
  claim4_conflict_skip_never_dispatched sampleMigration [sampleSkipItem] none
    (fun _ => false) (fun _ => Except.ok "tid") (fun _ => 0) _ 0 sampleSkipItem
    rfl rfl (by decide) (by decide)

/-- C6: for every item whose iteration is not skipped by cancellation, a
progress notification is emitted before the item is processed, carrying the
total, the counters as they stand strictly before that item (the state at
the top of its iteration), the item's name, and
`percentage = round(100·completed/total)` computed from those counters. -/
theorem claim6_progress_note_before_item (migration : Migration)
    (items : List MigrationItem) (connOk : Option String) (cancelled : Nat → Bool)
    (remote : Nat → Except String String) (now : Nat → Nat) (res : ExecResult)
    (j : Nat) (it : MigrationItem) (sj : CountState)
    (hres : res = executeMigration migration items (Except.ok connOk) cancelled remote now)
    (hj : items[j]? = some it)
    (hsj : res.trace.states[j]? = some sj)
    (hcj : cancelled j = false) :
    res.trace.notes[j]? = some (some
      { total := items.length
        completed := sj.completed
        failed := sj.failed
        skipped := sj.skipped
        percentage := jsRound100 sj.completed items.length
        currentItem := it.name }) := by
  subst hres
  have hjlt : j < items.length := by
    by_contra hge
    rw [List.getElem?_eq_none (by omega)] at hj
    exact Option.noConfusion hj
  have hspec := execLoop_spec items.length cancelled remote now items 0 ⟨0, 0, 0⟩ j hjlt
  simp only [Nat.zero_add] at hspec
  simp only [executeMigration] at hsj ⊢
  rw [hspec.1] at hsj
  have hsj' : stateAt items.length cancelled remote now 0 items ⟨0, 0, 0⟩ j = sj :=
    Option.some.inj hsj
  rw [hspec.2.2.1, hj]
  simp only [Option.map_some']
  rw [hcj, hsj', processItem_note]

/-- Witness for C6 at a concrete one-item run: the note carries the zeroed
counters and percentage 0. -/
theorem claim6_witness :
    (executeMigration sampleMigration [samplePendingItem] (Except.ok none)
        (fun _ => false) (fun _ => Except.ok "tid")
        (fun _ => 0)).trace.notes[0]? = some (some
      { total := 1
        completed := 0
        failed := 0
        skipped := 0
        percentage := jsRound100 0 1
        currentItem := samplePendingItem.name }) :=
  claim6_progress_note_before_item sampleMigration [samplePendingItem] none
    (fun _ => false) (fun _ => Except.ok "tid") (fun _ => 0) _ 0 samplePendingItem
    ⟨0, 0, 0⟩ rfl rfl rfl rfl

/-- C7: an item not resolved by `skip` is dispatched under its effective
name; with a conflict annotation and resolution `rename` that name differs
from the original and is distinct for distinct clock readings (so repeated
runs at different timestamps use distinct names); with no conflict
annotation the original name is used. -/
theorem claim7_rename_effective_name (migration : Migration)
    (items : List MigrationItem) (connOk : Option String) (cancelled : Nat → Bool)
    (remote : Nat → Except String String) (now : Nat → Nat) (res : ExecResult)
    (j : Nat) (it : MigrationItem) (t t' : Nat)
    (hres : res = executeMigration migration items (Except.ok connOk) cancelled remote now)
    (hj : items[j]? = some it)
    (hcj : cancelled j = false)
    (hns : ¬ (it.conflictType.isSome ∧ it.conflictResolution = some "skip")) :
    res.trace.calls[j]? =
      some (some ⟨it.itemType, it.sourceId, effectiveName it (now j)⟩) ∧
    (it.conflictType.isSome → it.conflictResolution = some "rename" →
      effectiveName it (now j) ≠ it.name ∧
      (t ≠ t' → effectiveName it t ≠ effectiveName it t')) ∧
    (it.conflictType = none → effectiveName it (now j) = it.name) := by
  subst hres
  have hjlt : j < items.length := by
    by_contra hge
    rw [List.getElem?_eq_none (by omega)] at hj
    exact Option.noConfusion hj
  have hspec := execLoop_spec items.length cancelled remote now items 0 ⟨0, 0, 0⟩ j hjlt
  simp only [Nat.zero_add] at hspec
  simp only [executeMigration]
  refine ⟨?_, ?_, ?_⟩
  · rw [hspec.2.2.2, hj]
    simp only [Option.map_some']
    rw [hcj, processItem_call items.length (remote j) (now j) it _ hns]
  · intro hc hr
    exact ⟨effectiveName_rename_ne hc hr (now j),
      fun ht => effectiveName_rename_inj hc hr ht⟩
  · intro hc
    exact effectiveName_no_conflict hc (now j)

/-- Witness for C7 at a concrete run on the conflict-rename item, with
distinct timestamps 5 and 6. -/
theorem claim7_witness :
    (executeMigration sampleMigration [sampleRenameItem] (Except.ok none)
        (fun _ => false) (fun _ => Except.ok "tid")
        (fun _ => 5)).trace.calls[0]? =
      some (some ⟨sampleRenameItem.itemType, sampleRenameItem.sourceId,
        effectiveName sampleRenameItem 5⟩) ∧
    (sampleRenameItem.conflictType.isSome →
      sampleRenameItem.conflictResolution = some "rename" →
      effectiveName sampleRenameItem 5 ≠ sampleRenameItem.name ∧
      (5 ≠ 6 → effectiveName sampleRenameItem 5 ≠ effectiveName sampleRenameItem 6)) ∧
    (sampleRenameItem.conflictType = none →
      effectiveName sampleRenameItem 5 = sampleRenameItem.name) :=
  claim7_rename_effective_name sampleMigration [sampleRenameItem] none
    (fun _ => false) (fun _ => Except.ok "tid") (fun _ => 5) _ 0 sampleRenameItem
    5 6 rfl rfl rfl (by decide)

/-- C3: once the status reads `cancelled` at the top of iteration `k` (and
stays so, as the cancel handler is the only writer and only ever sets
`cancelled`), every item from position `k` on is marked `skipped` with no
remote call, while the items before `k` — where cancellation was not yet
observed — have exactly the outcome of an uncancelled run. -/
theorem claim3_cancellation_skips_rest (migration : Migration)
    (items : List MigrationItem) (connOk : Option String) (cancelled : Nat → Bool)
    (remote : Nat → Except String String) (now : Nat → Nat) (k : Nat)
    (res base : ExecResult)
    (hres : res = executeMigration migration items (Except.ok connOk) cancelled remote now)
    (hbase : base = executeMigration migration items (Except.ok connOk)
      (fun _ => false) remote now)
    (hbefore : ∀ j, j < k → cancelled j = false)
    (hafter : ∀ j, k ≤ j → cancelled j = true) :
    (∀ j, k ≤ j →
      res.trace.outItems[j]? =
        (items[j]?).map (fun it => { it with status := ItemStatus.skipped }) ∧
      res.trace.calls[j]? = (items[j]?).map (fun _ => none)) ∧
    (∀ j, j < k →
      res.trace.outItems[j]? = base.trace.outItems[j]? ∧
      res.trace.calls[j]? = base.trace.calls[j]? ∧
      res.trace.notes[j]? = base.trace.notes[j]?) := by
  subst hres hbase
  simp only [executeMigration]
  constructor
  · intro j hkj
    by_cases hjl : j < items.length
    · have hspec := execLoop_spec items.length cancelled remote now items 0 ⟨0, 0, 0⟩ j hjl
      simp only [Nat.zero_add] at hspec
      rw [hspec.2.1, hspec.2.2.2, List.getElem?_eq_getElem hjl, hafter j hkj]
      simp only [Option.map_some', processItem_cancelled]
      exact ⟨trivial, trivial⟩
    · have hlens := execLoop_lengths items.length cancelled remote now items 0 ⟨0, 0, 0⟩
      rw [List.getElem?_eq_none (by omega : items.length ≤ j),
        List.getElem?_eq_none (by omega : (execLoop items.length cancelled remote now
          0 items ⟨0, 0, 0⟩).outItems.length ≤ j),
        List.getElem?_eq_none (by omega : (execLoop items.length cancelled remote now
          0 items ⟨0, 0, 0⟩).calls.length ≤ j)]
      exact ⟨rfl, rfl⟩
  · intro j hjk
    by_cases hjl : j < items.length
    · have hspec := execLoop_spec items.length cancelled remote now items 0 ⟨0, 0, 0⟩ j hjl
      have hspec' := execLoop_spec items.length (fun _ => false) remote now items 0
        ⟨0, 0, 0⟩ j hjl
      simp only [Nat.zero_add] at hspec hspec'
      have hcong : stateAt items.length cancelled remote now 0 items ⟨0, 0, 0⟩ j =
          stateAt items.length (fun _ => false) remote now 0 items ⟨0, 0, 0⟩ j := by
        refine stateAt_congr items.length cancelled (fun _ => false) remote now items 0
          ⟨0, 0, 0⟩ j ?_
        intro j' hj'
        simpa using hbefore j' (by omega)
      rw [hspec.2.1, hspec.2.2.1, hspec.2.2.2, hspec'.2.1, hspec'.2.2.1, hspec'.2.2.2,
        hcong, hbefore j hjk]
      exact ⟨rfl, rfl, rfl⟩
    · have hlens := execLoop_lengths items.length cancelled remote now items 0 ⟨0, 0, 0⟩
      have hlens' := execLoop_lengths items.length (fun _ => false) remote now items 0
        ⟨0, 0, 0⟩
      rw [List.getElem?_eq_none (by omega : (execLoop items.length cancelled remote now
          0 items ⟨0, 0, 0⟩).outItems.length ≤ j),
        List.getElem?_eq_none (by omega : (execLoop items.length cancelled remote now
          0 items ⟨0, 0, 0⟩).calls.length ≤ j),
        List.getElem?_eq_none (by omega : (execLoop items.length cancelled remote now
          0 items ⟨0, 0, 0⟩).notes.length ≤ j),
        List.getElem?_eq_none (by omega : (execLoop items.length (fun _ => false) remote
          now 0 items ⟨0, 0, 0⟩).outItems.length ≤ j),
        List.getElem?_eq_none (by omega : (execLoop items.length (fun _ => false) remote
          now 0 items ⟨0, 0, 0⟩).calls.length ≤ j),
        List.getElem?_eq_none (by omega : (execLoop items.length (fun _ => false) remote
          now 0 items ⟨0, 0, 0⟩).notes.length ≤ j)]
      exact ⟨rfl, rfl, rfl⟩

/-- Witness for C3: two items, cancellation observed from iteration 1 on;
item 0 matches the uncancelled run, item 1 is skipped with no call. -/
theorem claim3_witness :
    (∀ j, 1 ≤ j →
      (executeMigration sampleMigration [samplePendingItem, samplePendingItem]
          (Except.ok none) (fun i => decide (1 ≤ i)) (fun _ => Except.ok "tid")
          (fun _ => 0)).trace.outItems[j]? =
        (([samplePendingItem, samplePendingItem] : List MigrationItem)[j]?).map
          (fun it => { it with status := ItemStatus.skipped }) ∧
      (executeMigration sampleMigration [samplePendingItem, samplePendingItem]
          (Except.ok none) (fun i => decide (1 ≤ i)) (fun _ => Except.ok "tid")
          (fun _ => 0)).trace.calls[j]? =
        (([samplePendingItem, samplePendingItem] : List MigrationItem)[j]?).map
          (fun _ => none)) ∧
    (∀ j, j < 1 →
      (executeMigration sampleMigration [samplePendingItem, samplePendingItem]
          (Except.ok none) (fun i => decide (1 ≤ i)) (fun _ => Except.ok "tid")
          (fun _ => 0)).trace.outItems[j]? =
        (executeMigration sampleMigration [samplePendingItem, samplePendingItem]
          (Except.ok none) (fun _ => false) (fun _ => Except.ok "tid")
          (fun _ => 0)).trace.outItems[j]? ∧
      (executeMigration sampleMigration [samplePendingItem, samplePendingItem]
          (Except.ok none) (fun i => decide (1 ≤ i)) (fun _ => Except.ok "tid")
          (fun _ => 0)).trace.calls[j]? =
        (executeMigration sampleMigration [samplePendingItem, samplePendingItem]
          (Except.ok none) (fun _ => false) (fun _ => Except.ok "tid")
          (fun _ => 0)).trace.calls[j]? ∧
      (executeMigration sampleMigration [samplePendingItem, samplePendingItem]
          (Except.ok none) (fun i => decide (1 ≤ i)) (fun _ => Except.ok "tid")
          (fun _ => 0)).trace.notes[j]? =
        (executeMigration sampleMigration [samplePendingItem, samplePendingItem]
          (Except.ok none) (fun _ => false) (fun _ => Except.ok "tid")
          (fun _ => 0)).trace.notes[j]?) :=
  claim3_cancellation_skips_rest sampleMigration [samplePendingItem, samplePendingItem]
    none (fun i => decide (1 ≤ i)) (fun _ => Except.ok "tid") (fun _ => 0) 1 _ _ rfl rfl
    (by intro j hj; simp; omega) (by intro j hj; simp; omega)

/-- C1 counterexample: the claim fails as stated. Request with a connection
candidate "A" and a file candidate "A"; the target space has an existing
connection named "A" and no existing files. The file-kind candidate's name
matches an existing connection name but no existing file/folder name, yet
it receives the conflict annotation `NAME_EXISTS`, because the handler
checks `allConflicts.includes(item.name)` against the merged list. -/
theorem claim1_counterexample :
    ((mkMigrationItems "mig-1" (fun _ => "item-id") ["A"] [] none
        [⟨"c1", ItemType.connection, "A", 0⟩, ⟨"f1", ItemType.file, "A", 10⟩])[1]?).map
      (fun x => x.conflictType) = some (some "NAME_EXISTS") ∧
    ((["A"] : List String) = ["A"] ∧ ([] : List String) = []) := by
  constructor
  · decide
  · exact ⟨rfl, rfl⟩

/-- C1 amended: provided no connection-kind candidate shares a name with a
file/folder-kind candidate in the same request, conflict annotation respects
namespaces — a file/folder candidate whose name is not among the target's
existing file/folder names gets no annotation (even if it matches an
existing connection name), and a connection candidate whose name is not
among the existing connection names gets no annotation. -/
theorem claim1_amended_namespace_respect (migrationId : String) (itemIds : Nat → String)
    (existingConn existingFile : List String) (options : Option MigOptions)
    (items : List CandidateItem) (i : Nat) (it : CandidateItem)
    (hdisj : ∀ c ∈ items, ∀ f ∈ items, c.itemType = ItemType.connection →
      ¬ f.itemType = ItemType.connection → c.name ≠ f.name)
    (hi : items[i]? = some it) :
    (¬ it.itemType = ItemType.connection → it.name ∉ existingFile →
      ((mkMigrationItems migrationId itemIds existingConn existingFile options
        items)[i]?).map (fun x => x.conflictType) = some none) ∧
    (it.itemType = ItemType.connection → it.name ∉ existingConn →
      ((mkMigrationItems migrationId itemIds existingConn existingFile options
        items)[i]?).map (fun x => x.conflictType) = some none) := by
  have hmem : it ∈ items := List.getElem?_mem hi
  unfold mkMigrationItems
  rw [mkItemsAux_getElem, hi]
  simp only [Option.map_some']
  constructor
  · intro hkind hex
    have hnot : it.name ∉ allConflicts existingConn existingFile items := by
      intro hin
      rcases mem_allConflicts.mp hin with ⟨⟨c, hc, hck, hcn⟩, _⟩ | ⟨⟨f, _, _, _⟩, hfex⟩
      · exact hdisj c hc it hmem hck hkind hcn
      · exact hex hfex
    unfold mkMigrationItem
    rw [if_neg hnot]
  · intro hkind hex
    have hnot : it.name ∉ allConflicts existingConn existingFile items := by
      intro hin
      rcases mem_allConflicts.mp hin with ⟨⟨c, _, _, _⟩, hcex⟩ | ⟨⟨f, hf, hfk, hfn⟩, _⟩
      · exact hex hcex
      · exact hdisj it hmem f hf hkind hfk hfn.symm
    unfold mkMigrationItem
    rw [if_neg hnot]

/-- Witness for the amended C1: a lone file candidate "X" whose name matches
an existing connection name and no existing file name gets no annotation. -/
theorem claim1_amended_witness :
    ((mkMigrationItems "mig-1" (fun _ => "item-id") ["X"] [] none
        [⟨"f1", ItemType.file, "X", 0⟩])[0]?).map (fun x => x.conflictType)
      = some none :=
  (claim1_amended_namespace_respect "mig-1" (fun _ => "item-id") ["X"] [] none
    [⟨"f1", ItemType.file, "X", 0⟩] 0 ⟨"f1", ItemType.file, "X", 0⟩
    (by decide) rfl).1 (by decide) (by decide)

/-- `mkMigrationItems` creates exactly one item per candidate. -/
lemma mkMigrationItems_length (migrationId : String) (itemIds : Nat → String)
    (existingConn existingFile : List String) (options : Option MigOptions)
    (items : List CandidateItem) :
    (mkMigrationItems migrationId itemIds existingConn existingFile options
      items).length = items.length :=
  mkItemsAux_length migrationId itemIds _ options 0 items

/-- C8: `POST /api/migrations` answers 400 and persists nothing when either
space id is missing (or empty) or the item list is empty; answers 500 and
persists nothing when any of the four remote calls (two `getSpace`, two
conflict-detection lists) throws; otherwise it persists a Migration in
status `created` with one item per candidate, and returns them together
with the detected conflicts. -/
theorem claim8_create_migration (tenantId : String)
    (sourceSpaceId targetSpaceId : Option String) (reqItems : List CandidateItem)
    (options : Option MigOptions) (getSourceSpace getTargetSpace : Except String String)
    (listConn listFiles : Except String (List String)) (migrationId : String)
    (itemIds : Nat → String) (store : Store) :
    ((jsFalsy sourceSpaceId = true ∨ jsFalsy targetSpaceId = true ∨
        reqItems.length = 0) →
      createMigration tenantId sourceSpaceId targetSpaceId reqItems options
        getSourceSpace getTargetSpace listConn listFiles migrationId itemIds store =
        (CreateResult.badRequest, store)) ∧
    (¬ (jsFalsy sourceSpaceId = true ∨ jsFalsy targetSpaceId = true ∨
        reqItems.length = 0) →
      ∀ e, (getSourceSpace = Except.error e ∨ getTargetSpace = Except.error e ∨
          listConn = Except.error e ∨ listFiles = Except.error e) →
        ∃ e', createMigration tenantId sourceSpaceId targetSpaceId reqItems options
          getSourceSpace getTargetSpace listConn listFiles migrationId itemIds store =
          (CreateResult.remoteError e', store)) ∧
    (∀ sourceName targetName existingConn existingFile,
      ¬ (jsFalsy sourceSpaceId = true ∨ jsFalsy targetSpaceId = true ∨
        reqItems.length = 0) →
      getSourceSpace = Except.ok sourceName → getTargetSpace = Except.ok targetName →
      listConn = Except.ok existingConn → listFiles = Except.ok existingFile →
      ∃ m mitems,
        createMigration tenantId sourceSpaceId targetSpaceId reqItems options
          getSourceSpace getTargetSpace listConn listFiles migrationId itemIds store =
          (CreateResult.ok m mitems (allConflicts existingConn existingFile reqItems),
            ⟨mapSet store.migrations migrationId m,
              mapSet store.migrationItems migrationId mitems⟩) ∧
        m.status = MigStatus.created ∧
        mitems.length = reqItems.length ∧
        m.progress = ⟨reqItems.length, 0, 0, 0, 0⟩ ∧
        mapGet (mapSet store.migrations migrationId m) migrationId = some m ∧
        mapGet (mapSet store.migrationItems migrationId mitems) migrationId
          = some mitems) := by
  refine ⟨?_, ?_, ?_⟩
  · intro hbad
    unfold createMigration
    rw [if_pos hbad]
  · intro hok e herr
    unfold createMigration
    rw [if_neg hok]
    rcases herr with h | h | h | h
    · rw [h]
      exact ⟨e, rfl⟩
    · cases getSourceSpace with
      | error e1 => exact ⟨e1, rfl⟩
      | ok sn =>
        rw [h]
        exact ⟨e, rfl⟩
    · cases getSourceSpace with
      | error e1 => exact ⟨e1, rfl⟩
      | ok sn =>
        cases getTargetSpace with
        | error e2 => exact ⟨e2, rfl⟩
        | ok tn =>
          rw [h]
          exact ⟨e, rfl⟩
    · cases getSourceSpace with
      | error e1 => exact ⟨e1, rfl⟩
      | ok sn =>
        cases getTargetSpace with
        | error e2 => exact ⟨e2, rfl⟩
        | ok tn =>
          cases listConn with
          | error e3 => exact ⟨e3, rfl⟩
          | ok cn =>
            rw [h]
            exact ⟨e, rfl⟩
  · intro sourceName targetName existingConn existingFile hok hgs hgt hlc hlf
    subst hgs hgt hlc hlf
    unfold createMigration
    rw [if_neg hok]
    refine ⟨_, _, rfl, rfl, ?_, rfl, ?_, ?_⟩
    · exact mkMigrationItems_length migrationId itemIds existingConn existingFile
        options reqItems
    · exact mapGet_mapSet_self store.migrations migrationId _
    · exact mapGet_mapSet_self store.migrationItems migrationId _

/-- Witness for C8: a concrete valid request with one candidate and no
conflicts persists a `created` migration with one item; the same request
with a missing source id is rejected with nothing stored. -/
theorem claim8_witness :
    (∃ m mitems,
      createMigration "tenant-1" (some "src") (some "tgt")
        [⟨"c1", ItemType.connection, "DB1", 0⟩] none (Except.ok "S") (Except.ok "T")
        (Except.ok []) (Except.ok []) "mig-9" (fun _ => "item-id") ⟨[], []⟩ =
        (CreateResult.ok m mitems
          (allConflicts [] [] [⟨"c1", ItemType.connection, "DB1", 0⟩]),
          ⟨mapSet [] "mig-9" m, mapSet [] "mig-9" mitems⟩) ∧
      m.status = MigStatus.created ∧
      mitems.length = 1 ∧
      m.progress = ⟨1, 0, 0, 0, 0⟩ ∧
      mapGet (mapSet [] "mig-9" m) "mig-9" = some m ∧
      mapGet (mapSet [] "mig-9" mitems) "mig-9" = some mitems) ∧
    createMigration "tenant-1" none (some "tgt")
      [⟨"c1", ItemType.connection, "DB1", 0⟩] none (Except.ok "S") (Except.ok "T")
      (Except.ok []) (Except.ok []) "mig-9" (fun _ => "item-id") ⟨[], []⟩ =
      (CreateResult.badRequest, ⟨[], []⟩) :=
  ⟨(claim8_create_migration "tenant-1" (some "src") (some "tgt")
      [⟨"c1", ItemType.connection, "DB1", 0⟩] none (Except.ok "S") (Except.ok "T")
      (Except.ok []) (Except.ok []) "mig-9" (fun _ => "item-id") ⟨[], []⟩).2.2
    "S" "T" [] [] (by decide) rfl rfl rfl rfl,
   (claim8_create_migration "tenant-1" none (some "tgt")
      [⟨"c1", ItemType.connection, "DB1", 0⟩] none (Except.ok "S") (Except.ok "T")
      (Except.ok []) (Except.ok []) "mig-9" (fun _ => "item-id") ⟨[], []⟩).1
    (by decide)⟩

end QlikMig
